import Mathlib

/-!
Shallow embedding of the session/service lifecycle coordinator:
the service control endpoints (`tequilapi/endpoints/service.go`),
the session history record (`session` package), and the mobile
openvpn connection setup (`mobile/mysterium/openvpn_connection_setup.go`).

Conventions of the embedding:
* Go strings are Lean `String`; a JSON field absent from the request body
  decodes to the zero value `""`.
* `time.Time` is modelled as an `Int` of nanoseconds since the epoch;
  `t2.Sub t1` is integer subtraction.  The `uint64(d.Seconds())`
  truncation in `GetDuration` is modelled as division by 10^9 for
  non-negative durations (Go's conversion of a negative float64 to
  uint64 is implementation-defined, and a completed record has
  `Started ≤ Updated`).
* Fallible Go calls return `Except`/`Option`; a Go runtime panic
  (send or close on a closed channel, nil dereference) is `Option.none`.
* External collaborators (service manager, options parsers, the native
  openvpn3 session) are passed in as explicit parameters, so theorems
  quantify over their behaviour.
-/

namespace NodeCore

/-! ## Session history (`session` package) -/

/-- `SessionStatusNew` constant. -/
def sessionStatusNew : String := "New"

/-- `SessionStatusCompleted` constant. -/
def sessionStatusCompleted : String := "Completed"

/-- `consumer.SessionStatistics`: monotone byte counters. -/
structure SessionStatistics where
  bytesSent : Nat
  bytesReceived : Nat
  deriving Repr, DecidableEq

/-- The `History` storage record.  Timestamps are nanoseconds since epoch. -/
structure History where
  sessionID : String
  providerID : String
  serviceType : String
  providerCountry : String
  started : Int
  status : String
  updated : Int
  dataStats : SessionStatistics
  deriving Repr, DecidableEq

/-- Embeds `History.GetDuration`: if the status is `Completed`, return
`uint64(se.Updated.Sub(se.Started).Seconds())`, i.e. the elapsed
nanoseconds divided (truncated) into whole seconds; otherwise 0.
`Int.toNat` of the truncated quotient matches Go for non-negative
durations. -/
def History.getDuration (se : History) : Nat :=
  if se.status = sessionStatusCompleted then
    ((se.updated - se.started) / 1000000000).toNat
  else 0

example :
    History.getDuration
      { sessionID := "s", providerID := "p", serviceType := "openvpn",
        providerCountry := "LT", started := 0, status := "Completed",
        updated := 2500000000, dataStats := ⟨0, 0⟩ } = 2 := by decide

example :
    History.getDuration
      { sessionID := "s", providerID := "p", serviceType := "openvpn",
        providerCountry := "LT", started := 0, status := "New",
        updated := 2500000000, dataStats := ⟨0, 0⟩ } = 0 := by decide

/-- A concrete completed record spanning 3.7 seconds, used to witness the
duration theorems. -/
def historySample : History :=
  { sessionID := "session1", providerID := "0xprov", serviceType := "openvpn",
    providerCountry := "LT", started := 0, status := "Completed",
    updated := 3700000000, dataStats := ⟨10, 20⟩ }

/-- A concrete completed record whose `Started` and `Updated` timestamps are
equal. -/
def zeroLengthCompleted : History :=
  { sessionID := "s0", providerID := "p0", serviceType := "wireguard",
    providerCountry := "DE", started := 1000, status := "Completed",
    updated := 1000, dataStats := ⟨0, 0⟩ }

/-- A concrete completed record spanning exactly one second. -/
def oneSecondCompleted : History :=
  { sessionID := "s1", providerID := "p1", serviceType := "noop",
    providerCountry := "US", started := 5, status := "Completed",
    updated := 1000000005, dataStats := ⟨1, 2⟩ }

/-- C3: `GetDuration` returns 0 for every record whose status is not
`Completed`; for a `Completed` record with `Started ≤ Updated` it returns
`Updated − Started` truncated to whole seconds (the elapsed nanoseconds lie
within the returned second's window), including zero-length intervals; and
the value depends only on the `Status`, `Started` and `Updated` fields —
it is recomputed, never stored. -/
theorem getDuration_derives_whole_seconds (se : History) :
    (se.status ≠ sessionStatusCompleted → se.getDuration = 0)
    ∧ (se.status = sessionStatusCompleted → se.started ≤ se.updated →
        (se.getDuration : Int) * 1000000000 ≤ se.updated - se.started ∧
        se.updated - se.started < (se.getDuration : Int) * 1000000000 + 1000000000)
    ∧ (∀ se₂ : History, se.status = se₂.status → se.started = se₂.started →
        se.updated = se₂.updated → se.getDuration = se₂.getDuration) := by
  refine ⟨fun h => by simp [History.getDuration, h], fun h hle => ?_,
    fun se₂ h1 h2 h3 => by simp [History.getDuration, h1, h2, h3]⟩
  simp only [History.getDuration, if_pos h]
  omega

/-- C3 witness: the duration characterisation evaluated on the concrete
3.7-second completed record, whose duration is 3 whole seconds. -/
theorem getDuration_derives_whole_seconds_witness :
    historySample.status = sessionStatusCompleted ∧
    historySample.started ≤ historySample.updated ∧
    ((historySample.getDuration : Int) * 1000000000 ≤
        historySample.updated - historySample.started ∧
      historySample.updated - historySample.started <
        (historySample.getDuration : Int) * 1000000000 + 1000000000) :=
  ⟨by decide, by decide,
    (getDuration_derives_whole_seconds historySample).2.1 (by decide) (by decide)⟩

/-- C4 counterexample: a `Completed` record whose `Updated` and `Started`
timestamps are equal has duration 0, so “duration is non-zero exactly when
status is Completed” fails on the code. -/
theorem getDuration_nonzero_iff_completed_false :
    ¬ (zeroLengthCompleted.getDuration ≠ 0 ↔
        zeroLengthCompleted.status = sessionStatusCompleted) := by decide

/-- C4 amended: a non-zero duration occurs only for `Completed` records, and
a `Completed` record with `Started ≤ Updated` has non-zero duration iff the
interval is at least one full second; sub-second intervals (equal timestamps
included) yield 0. -/
theorem getDuration_nonzero_only_if_completed (se : History) :
    (se.getDuration ≠ 0 → se.status = sessionStatusCompleted)
    ∧ (se.status = sessionStatusCompleted → se.started ≤ se.updated →
        (se.getDuration ≠ 0 ↔ se.started + 1000000000 ≤ se.updated)) := by
  constructor
  · intro h
    by_contra hn
    simp [History.getDuration, hn] at h
  · intro h hle
    simp only [History.getDuration, if_pos h]
    omega

/-- C4 amended witness: the one-second completed record has non-zero
duration. -/
theorem getDuration_nonzero_only_if_completed_witness :
    oneSecondCompleted.status = sessionStatusCompleted ∧
    oneSecondCompleted.started ≤ oneSecondCompleted.updated ∧
    (oneSecondCompleted.getDuration ≠ 0 ↔
      oneSecondCompleted.started + 1000000000 ≤ oneSecondCompleted.updated) :=
  ⟨by decide, by decide,
    (getDuration_nonzero_only_if_completed oneSecondCompleted).2 (by decide) (by decide)⟩

/-! ## Service control endpoints (`tequilapi/endpoints/service.go`) -/

/-- `identity.Identity`: an address-carrying identity. -/
structure Identity where
  address : String
  deriving Repr, DecidableEq

/-- `identity.FromAddress` wraps an address string. -/
def Identity.fromAddress (a : String) : Identity := ⟨a⟩

/-- The slice of the service proposal the endpoints read: provider identity
and service type. -/
structure Proposal where
  providerID : String
  serviceType : String
  deriving Repr, DecidableEq

/-- The slice of `service.Instance` the endpoints read: its proposal and its
lifecycle state string (`instance.State()`). -/
structure Instance where
  proposal : Proposal
  state : String
  deriving Repr, DecidableEq

/-- `service.ID`. -/
abbrev ServiceID := String

/-- A raw JSON options payload, opaque to the endpoint. -/
abbrev RawMessage := String

/-- Parsed service-specific options, opaque to the endpoint. -/
abbrev ServiceOptions := String

/-- The decoded request body seen by `toServiceRequest`.  Go's JSON decoder
maps an absent string field to `""` and an absent `options` to `nil`
(`none`); a body that fails to decode altogether is `none` at the call
site. -/
structure JsonBody where
  providerId : String
  serviceType : String
  options : Option RawMessage
  deriving Repr, DecidableEq

/-- `serviceRequest` as produced by `toServiceRequest`. -/
structure ServiceRequest where
  providerID : String
  serviceType : String
  options : Option ServiceOptions
  deriving Repr, DecidableEq

/-- One entry of `validation.FieldErrorMap`: field name, error code,
message. -/
structure FieldError where
  field : String
  code : String
  message : String
  deriving Repr, DecidableEq

/-- Embeds `ServiceEndpoint.toServiceRequest` after a successful JSON decode:
copy `providerId` and `serviceType`; when an `options` payload is present,
look up the parser registered for the declared service type — a missing
parser yields the `Invalid service type` error and a parse failure the
`Invalid options` error. -/
def toServiceRequest
    (optionsParser : String → Option (RawMessage → Except String ServiceOptions))
    (body : JsonBody) : Except String ServiceRequest :=
  let sr : ServiceRequest :=
    { providerID := body.providerId, serviceType := body.serviceType, options := none }
  match body.options with
  | none => .ok sr
  | some raw =>
    match optionsParser body.serviceType with
    | none => .error "Invalid service type"
    | some parse =>
      match parse raw with
      | .error _ => .error "Invalid options"
      | .ok opts => .ok { sr with options := some opts }

/-- Embeds `validateServiceRequest`: a `required` error for `providerId`
when it has length 0 and for `serviceType` when it is `""`, in that
order. -/
def validateServiceRequest (sr : ServiceRequest) : List FieldError :=
  (if sr.providerID.length = 0 then
    [{ field := "providerId", code := "required", message := "Field is required" }]
   else []) ++
  (if sr.serviceType = "" then
    [{ field := "serviceType", code := "required", message := "Field is required" }]
   else [])

/-- Embeds `ServiceEndpoint.isAlreadyRunning`: scan the manager's `List()`
for an instance whose proposal matches the request's provider identity and
service type. -/
def isAlreadyRunning (instances : List (ServiceID × Instance))
    (sr : ServiceRequest) : Bool :=
  instances.any fun inst =>
    inst.2.proposal.providerID == sr.providerID &&
      inst.2.proposal.serviceType == sr.serviceType

/-- Outcome of `serviceManager.Start`: `service.ErrorLocation` or any other
error. -/
inductive StartError where
  | location
  | internal (msg : String)
  deriving Repr, DecidableEq

/-- The HTTP-level outcomes `ServiceStart` can write. -/
inductive StartResponse where
  | badRequest (msg : String)
  | validationError (errs : List FieldError)
  | conflict (msg : String)
  | internalError (msg : String)
  | created (id : ServiceID) (inst : Option Instance)
  deriving Repr, DecidableEq

/-- Embeds `ServiceEndpoint.ServiceStart`.  The service manager is passed in
as its observable pieces: the current `List()` snapshot, the `Start` outcome
oracle, and the `Service` lookup.  The result pairs the response written
with the list of `serviceManager.Start` invocations the handler made. -/
def serviceStart
    (optionsParser : String → Option (RawMessage → Except String ServiceOptions))
    (instances : List (ServiceID × Instance))
    (managerStart : Identity → String → Option ServiceOptions → Except StartError ServiceID)
    (managerService : ServiceID → Option Instance)
    (body : Option JsonBody) :
    StartResponse × List (Identity × String × Option ServiceOptions) :=
  match body with
  | none => (.badRequest "json decode error", [])
  | some jd =>
    match toServiceRequest optionsParser jd with
    | .error e => (.badRequest e, [])
    | .ok sr =>
      let errorMap := validateServiceRequest sr
      if errorMap ≠ [] then (.validationError errorMap, [])
      else if isAlreadyRunning instances sr then
        (.conflict "Service already running", [])
      else
        let pid := Identity.fromAddress sr.providerID
        let call := (pid, sr.serviceType, sr.options)
        match managerStart pid sr.serviceType sr.options with
        | .error .location => (.badRequest "location error", [call])
        | .error (.internal msg) => (.internalError msg, [call])
        | .ok id => (.created id (managerService id), [call])

/-- `toServiceRequest` copies the provider identity and service type from the
decoded body verbatim whenever it succeeds. -/
theorem toServiceRequest_ok_fields
    {optionsParser : String → Option (RawMessage → Except String ServiceOptions)}
    {jd : JsonBody} {sr : ServiceRequest}
    (h : toServiceRequest optionsParser jd = .ok sr) :
    sr.providerID = jd.providerId ∧ sr.serviceType = jd.serviceType := by
  unfold toServiceRequest at h
  rcases jd with ⟨pid, st, opts⟩
  cases opts with
  | none =>
    simp only at h
    cases h
    exact ⟨rfl, rfl⟩
  | some raw =>
    simp only at h
    cases hp : optionsParser st with
    | none => rw [hp] at h; cases h
    | some parse =>
      rw [hp] at h
      simp only at h
      cases hr : parse raw with
      | error e => rw [hr] at h; cases h
      | ok opts' => rw [hr] at h; cases h; exact ⟨rfl, rfl⟩

/-- A Go `len(s) == 0` test is the same as `s == ""`. -/
theorem string_length_zero (s : String) : s.length = 0 ↔ s = "" := by
  constructor
  · intro h
    cases s with
    | mk data =>
      cases data with
      | nil => rfl
      | cons a l => simp [String.length] at h
  · intro h
    subst h
    rfl

/-- C1 counterexample: a request missing `serviceType` but carrying an
`options` payload (with no parser registered for the empty service type) is
answered with the 400 `Invalid service type` error from `toServiceRequest` —
not with a validation error enumerating the missing field — so the claimed
behaviour does not hold regardless of an options payload being present. -/
theorem serviceStart_missing_type_with_options_not_validation :
    (serviceStart (fun _ => none) []
        (fun _ _ _ => Except.error StartError.location) (fun _ => none)
        (some { providerId := "0xabc", serviceType := "", options := some "x" })).1
      = StartResponse.badRequest "Invalid service type" := rfl

/-- C1 amended: whenever `toServiceRequest` succeeds (no options payload, or
a registered parser accepts it), a request missing `providerId`,
`serviceType`, or both is answered with a validation error enumerating
exactly the missing fields, and the registry's `Start` is never called; a
request with an options payload must first pass options parsing, so a
missing `serviceType` together with an options payload is answered 400
`Invalid service type` instead (unless a parser is registered for `""`). -/
theorem serviceStart_validation_enumerates_missing_fields
    (optionsParser : String → Option (RawMessage → Except String ServiceOptions))
    (instances : List (ServiceID × Instance))
    (managerStart : Identity → String → Option ServiceOptions → Except StartError ServiceID)
    (managerService : ServiceID → Option Instance)
    (jd : JsonBody) (sr : ServiceRequest)
    (hok : toServiceRequest optionsParser jd = .ok sr)
    (hmiss : jd.providerId = "" ∨ jd.serviceType = "") :
    serviceStart optionsParser instances managerStart managerService (some jd)
      = (.validationError
          ((if jd.providerId = "" then
              [{ field := "providerId", code := "required", message := "Field is required" }]
            else []) ++
           (if jd.serviceType = "" then
              [{ field := "serviceType", code := "required", message := "Field is required" }]
            else [])), []) := by
  obtain ⟨hp, ht⟩ := toServiceRequest_ok_fields hok
  have hmap : validateServiceRequest sr
      = (if jd.providerId = "" then
          [{ field := "providerId", code := "required", message := "Field is required" }]
        else []) ++
        (if jd.serviceType = "" then
          [{ field := "serviceType", code := "required", message := "Field is required" }]
        else []) := by
    unfold validateServiceRequest
    rw [hp, ht]
    congr 1
    by_cases h : jd.providerId = "" <;> simp [h, string_length_zero]
  have hne : validateServiceRequest sr ≠ [] := by
    rw [hmap]
    rcases hmiss with h | h <;> simp [h]
  simp only [serviceStart, hok, hmap, hne, if_pos, ne_eq, not_false_iff, if_true]
  rw [if_pos]
  exact fun hc => hne (hmap ▸ hc)

/-- Concrete arguments for the validation witness: no registered parsers, an
empty manager list, and a body missing both required fields. -/
def emptyBody : JsonBody := { providerId := "", serviceType := "", options := none }

/-- C1 amended witness: the empty request body (no options payload) yields a
validation error listing `providerId` and `serviceType`, and no `Start`
call. -/
theorem serviceStart_validation_witness :
    toServiceRequest (fun _ => none) emptyBody
      = .ok { providerID := "", serviceType := "", options := none } ∧
    (emptyBody.providerId = "" ∨ emptyBody.serviceType = "") ∧
    serviceStart (fun _ => none) []
        (fun _ _ _ => Except.error StartError.location) (fun _ => none) (some emptyBody)
      = (.validationError
          [{ field := "providerId", code := "required", message := "Field is required" },
           { field := "serviceType", code := "required", message := "Field is required" }], []) := by
  refine ⟨rfl, Or.inl rfl, ?_⟩
  exact serviceStart_validation_enumerates_missing_fields (fun _ => none) []
    (fun _ _ _ => Except.error StartError.location) (fun _ => none)
    emptyBody { providerID := "", serviceType := "", options := none } rfl (Or.inl rfl)

/-- C2: a well-formed, validation-passing request whose provider identity and
service type match the proposal of some instance in the manager's `List()` —
in particular a running one — is answered `Conflict`, and the registry's
`Start` is never invoked, regardless of what other instances exist. -/
theorem serviceStart_conflict_when_already_running
    (optionsParser : String → Option (RawMessage → Except String ServiceOptions))
    (instances : List (ServiceID × Instance))
    (managerStart : Identity → String → Option ServiceOptions → Except StartError ServiceID)
    (managerService : ServiceID → Option Instance)
    (jd : JsonBody) (sr : ServiceRequest) (entry : ServiceID × Instance)
    (hok : toServiceRequest optionsParser jd = .ok sr)
    (hvalid : validateServiceRequest sr = [])
    (hmem : entry ∈ instances)
    (hprov : entry.2.proposal.providerID = sr.providerID)
    (htype : entry.2.proposal.serviceType = sr.serviceType)
    (_hrun : entry.2.state = "Running") :
    serviceStart optionsParser instances managerStart managerService (some jd)
      = (.conflict "Service already running", []) := by
  have hrunning : isAlreadyRunning instances sr = true := by
    unfold isAlreadyRunning
    exact List.any_eq_true.mpr ⟨entry, hmem, by simp [hprov, htype]⟩
  simp [serviceStart, hok, hvalid, hrunning]

/-- Concrete manager snapshot for the conflict witness: the matching running
instance plus an unrelated one. -/
def conflictInstances : List (ServiceID × Instance) :=
  [("id1", { proposal := { providerID := "0xabc", serviceType := "wireguard" },
             state := "Running" }),
   ("id2", { proposal := { providerID := "0xother", serviceType := "noop" },
             state := "Starting" })]

/-- Concrete request body for the conflict witness. -/
def conflictBody : JsonBody :=
  { providerId := "0xabc", serviceType := "wireguard", options := none }

/-- C2 witness: starting `0xabc`/`wireguard` while `id1` runs it answers
`Conflict` with no `Start` call, the unrelated `id2` notwithstanding. -/
theorem serviceStart_conflict_witness :
    toServiceRequest (fun _ => none) conflictBody
      = .ok { providerID := "0xabc", serviceType := "wireguard", options := none } ∧
    validateServiceRequest
        { providerID := "0xabc", serviceType := "wireguard", options := none } = [] ∧
    (conflictInstances.head?.map Prod.snd)
      = some { proposal := { providerID := "0xabc", serviceType := "wireguard" },
               state := "Running" } ∧
    serviceStart (fun _ => none) conflictInstances
        (fun _ _ _ => Except.ok "newid") (fun _ => none) (some conflictBody)
      = (.conflict "Service already running", []) := by
  refine ⟨rfl, rfl, rfl, ?_⟩
  exact serviceStart_conflict_when_already_running (fun _ => none) conflictInstances
    (fun _ _ _ => Except.ok "newid") (fun _ => none) conflictBody
    { providerID := "0xabc", serviceType := "wireguard", options := none }
    ("id1", { proposal := { providerID := "0xabc", serviceType := "wireguard" },
              state := "Running" })
    rfl rfl (by simp [conflictInstances]) rfl rfl rfl

/-! ## Event adapter (`mobile/mysterium/openvpn_connection_setup.go`) -/

/-- `connection.State` values used by the mobile adapter and tracker. -/
inductive ConnState where
  | Connecting
  | Connected
  | Disconnecting
  | NotConnected
  deriving Repr, DecidableEq

/-- The observable history of a Go channel with an always-ready consumer:
the values sent so far and whether the channel has been closed. -/
structure ChannelTrace (α : Type) where
  sent : List α
  closed : Bool
  deriving Repr, DecidableEq

/-- A send on a channel; sending on a closed channel is a Go runtime panic,
modelled as `none`. -/
def channelSend {α} (a : α) (c : ChannelTrace α) : Option (ChannelTrace α) :=
  if c.closed then none else some { c with sent := c.sent ++ [a] }

/-- Closing a channel; closing an already-closed channel is a Go runtime
panic, modelled as `none`. -/
def channelClose {α} (c : ChannelTrace α) : Option (ChannelTrace α) :=
  if c.closed then none else some { c with closed := true }

/-- The two outgoing sequences held by `channelToCallbacksAdapter`. -/
structure AdapterChannels where
  stateChannel : ChannelTrace ConnState
  statisticsChannel : ChannelTrace SessionStatistics
  deriving Repr, DecidableEq

/-- Embeds `channelToCallbacksAdapter.OnEvent`: switch on the engine event
name; `CONNECTING` and `CONNECTED` send the matching state, `DISCONNECTED`
sends `NotConnected` and then closes the state channel, and any other name
is only logged.  `none` models a runtime panic. -/
def onEvent (name : String) (ch : AdapterChannels) : Option AdapterChannels :=
  if name = "CONNECTING" then
    (channelSend ConnState.Connecting ch.stateChannel).map
      (fun c => { ch with stateChannel := c })
  else if name = "CONNECTED" then
    (channelSend ConnState.Connected ch.stateChannel).map
      (fun c => { ch with stateChannel := c })
  else if name = "DISCONNECTED" then
    match channelSend ConnState.NotConnected ch.stateChannel with
    | none => none
    | some c =>
      match channelClose c with
      | none => none
      | some c' => some { ch with stateChannel := c' }
  else some ch

/-- Deliver a sequence of engine events to the adapter in order; a panic
aborts the run. -/
def runEvents (events : List String) (ch : AdapterChannels) : Option AdapterChannels :=
  match events with
  | [] => some ch
  | e :: rest =>
    match onEvent e ch with
    | none => none
    | some ch' => runEvents rest ch'

/-- A fresh adapter for a new session: both channels empty and open. -/
def freshChannels : AdapterChannels := ⟨⟨[], false⟩, ⟨[], false⟩⟩

/-- Number of terminal `NotConnected` events in a channel history. -/
def countNotConnected (l : List ConnState) : Nat := l.count ConnState.NotConnected

/-- C5: with the state channel open, a `CONNECTING` event pushes exactly
`Connecting`, `CONNECTED` pushes exactly `Connected`, `DISCONNECTED` pushes
`NotConnected` and closes the state channel, and any other event name
changes neither channel. -/
theorem onEvent_pushes_exactly (ch : AdapterChannels)
    (hopen : ch.stateChannel.closed = false) :
    onEvent "CONNECTING" ch
      = some { ch with stateChannel :=
          { sent := ch.stateChannel.sent ++ [ConnState.Connecting], closed := false } }
    ∧ onEvent "CONNECTED" ch
      = some { ch with stateChannel :=
          { sent := ch.stateChannel.sent ++ [ConnState.Connected], closed := false } }
    ∧ onEvent "DISCONNECTED" ch
      = some { ch with stateChannel :=
          { sent := ch.stateChannel.sent ++ [ConnState.NotConnected], closed := true } }
    ∧ ∀ name, name ≠ "CONNECTING" → name ≠ "CONNECTED" → name ≠ "DISCONNECTED" →
        onEvent name ch = some ch := by
  refine ⟨?_, ?_, ?_, ?_⟩
  · simp [onEvent, channelSend, hopen]
  · simp [onEvent, channelSend, hopen]
  · simp [onEvent, channelSend, channelClose, hopen]
  · intro name h1 h2 h3
    simp [onEvent, h1, h2, h3]

/-- C5 witness: the four cases evaluated on a fresh adapter, with `PAUSED`
as the unrecognized name. -/
theorem onEvent_pushes_exactly_witness :
    freshChannels.stateChannel.closed = false
    ∧ onEvent "CONNECTING" freshChannels
      = some ⟨⟨[ConnState.Connecting], false⟩, ⟨[], false⟩⟩
    ∧ onEvent "CONNECTED" freshChannels
      = some ⟨⟨[ConnState.Connected], false⟩, ⟨[], false⟩⟩
    ∧ onEvent "DISCONNECTED" freshChannels
      = some ⟨⟨[ConnState.NotConnected], true⟩, ⟨[], false⟩⟩
    ∧ onEvent "PAUSED" freshChannels = some freshChannels := by
  have h := onEvent_pushes_exactly freshChannels rfl
  exact ⟨rfl, h.1, h.2.1, h.2.2.1, h.2.2.2 "PAUSED" (by decide) (by decide) (by decide)⟩

/-- Once the state channel is closed, a surviving run leaves the adapter
untouched: every recognized event would panic instead of emitting, so only
unrecognized events (which change nothing) can have been delivered. -/
theorem runEvents_closed_frozen (events : List String) :
    ∀ ch ch', ch.stateChannel.closed = true → runEvents events ch = some ch' → ch' = ch := by
  induction events with
  | nil =>
    intro ch ch' _ h
    cases h
    rfl
  | cons e rest ih =>
    intro ch ch' hc h
    unfold runEvents at h
    by_cases h1 : e = "CONNECTING"
    · simp [onEvent, channelSend, h1, hc] at h
    · by_cases h2 : e = "CONNECTED"
      · simp [onEvent, channelSend, h1, h2, hc] at h
      · by_cases h3 : e = "DISCONNECTED"
        · simp [onEvent, channelSend, h1, h2, h3, hc] at h
        · simp only [onEvent, if_neg h1, if_neg h2, if_neg h3] at h
          exact ih ch ch' hc h

/-- From an open state channel, a surviving run either keeps the channel
open and sends no `NotConnected`, or closes it having sent exactly one
more `NotConnected`. -/
theorem runEvents_open_cases (events : List String) :
    ∀ ch ch', ch.stateChannel.closed = false → runEvents events ch = some ch' →
      (ch'.stateChannel.closed = false ∧
        countNotConnected ch'.stateChannel.sent = countNotConnected ch.stateChannel.sent)
      ∨ (ch'.stateChannel.closed = true ∧
        countNotConnected ch'.stateChannel.sent
          = countNotConnected ch.stateChannel.sent + 1) := by
  induction events with
  | nil =>
    intro ch ch' ho h
    cases h
    exact Or.inl ⟨ho, rfl⟩
  | cons e rest ih =>
    intro ch ch' ho h
    unfold runEvents at h
    by_cases h1 : e = "CONNECTING"
    · simp only [onEvent, if_pos h1, channelSend, ho, Bool.false_eq_true, if_neg,
        ite_false, Option.map_some] at h
      have := ih _ ch' rfl h
      simpa [countNotConnected, List.count_append] using this
    · by_cases h2 : e = "CONNECTED"
      · simp only [onEvent, if_neg h1, if_pos h2, channelSend, ho, Bool.false_eq_true,
          ite_false, Option.map_some] at h
        have := ih _ ch' rfl h
        simpa [countNotConnected, List.count_append] using this
      · by_cases h3 : e = "DISCONNECTED"
        · simp only [onEvent, if_neg h1, if_neg h2, if_pos h3, channelSend, channelClose,
            ho, Bool.false_eq_true, ite_false] at h
          have hfrozen := runEvents_closed_frozen rest _ ch' rfl h
          subst hfrozen
          exact Or.inr ⟨rfl, by simp [countNotConnected, List.count_append]⟩
        · simp only [onEvent, if_neg h1, if_neg h2, if_neg h3] at h
          exact ih ch ch' ho h

/-- C6 counterexample: delivering `DISCONNECTED` twice makes the adapter
send `NotConnected` on the already-closed state channel, a Go runtime
panic — the adapter does crash on a repeated terminal event. -/
theorem runEvents_double_disconnect_panics :
    runEvents ["DISCONNECTED", "DISCONNECTED"] freshChannels = none := rfl

/-- C6 amended: for every event sequence of a single session, a surviving
run has sent at most one terminal `NotConnected` (exactly one iff the state
channel ended closed, so the channel is closed at most once), and once the
state channel is closed a surviving run changes nothing (nothing is ever
emitted after close — a recognized event would panic instead, as the
counterexample for a repeated `DISCONNECTED` shows). -/
theorem adapter_terminal_safety (events : List String) :
    (∀ ch', runEvents events freshChannels = some ch' →
      countNotConnected ch'.stateChannel.sent ≤ 1
      ∧ (ch'.stateChannel.closed = true ↔ countNotConnected ch'.stateChannel.sent = 1))
    ∧ (∀ ch ch', ch.stateChannel.closed = true → runEvents events ch = some ch' →
        ch' = ch) := by
  constructor
  · intro ch' h
    have h0 : countNotConnected freshChannels.stateChannel.sent = 0 := rfl
    rcases runEvents_open_cases events freshChannels ch' rfl h with ⟨hc, hn⟩ | ⟨hc, hn⟩
    · refine ⟨by omega, ?_⟩
      rw [hc]
      constructor
      · intro hcon; cases hcon
      · intro hcon; exfalso; omega
    · refine ⟨by omega, ?_⟩
      constructor
      · intro _; omega
      · intro _; exact hc
  · exact runEvents_closed_frozen events

/-- C6 amended witness: the normal `CONNECTING, CONNECTED, DISCONNECTED`
session satisfies the terminal-safety bound, and a closed adapter survives
an unrecognized event unchanged. -/
theorem adapter_terminal_safety_witness :
    (countNotConnected
        (⟨⟨[ConnState.Connecting, ConnState.Connected, ConnState.NotConnected], true⟩,
          ⟨[], false⟩⟩ : AdapterChannels).stateChannel.sent ≤ 1
      ∧ ((⟨⟨[ConnState.Connecting, ConnState.Connected, ConnState.NotConnected], true⟩,
          ⟨[], false⟩⟩ : AdapterChannels).stateChannel.closed = true ↔
        countNotConnected
          (⟨⟨[ConnState.Connecting, ConnState.Connected, ConnState.NotConnected], true⟩,
            ⟨[], false⟩⟩ : AdapterChannels).stateChannel.sent = 1))
    ∧ (⟨⟨[ConnState.NotConnected], true⟩, ⟨[], false⟩⟩ : AdapterChannels)
        = ⟨⟨[ConnState.NotConnected], true⟩, ⟨[], false⟩⟩ := by
  constructor
  · exact (adapter_terminal_safety ["CONNECTING", "CONNECTED", "DISCONNECTED"]).1
      ⟨⟨[ConnState.Connecting, ConnState.Connected, ConnState.NotConnected], true⟩,
        ⟨[], false⟩⟩ rfl
  · exact (adapter_terminal_safety ["PAUSED"]).2
      ⟨⟨[ConnState.NotConnected], true⟩, ⟨[], false⟩⟩
      ⟨⟨[ConnState.NotConnected], true⟩, ⟨[], false⟩⟩ rfl rfl

/-! ## Session tracker (`sessionTracker`) -/

/-- The native `openvpn3.Session` as the tracker observes it: its
`Reconnect` primitive's outcome for each requested delay (`none` is a `nil`
error). -/
structure NativeSession where
  reconnectResult : Int → Option String

/-- The errors `sessionTracker.Reconnect` can return. -/
inductive TrackerError where
  | noActiveSession
  | native (msg : String)
  deriving Repr, DecidableEq

/-- Embeds `sessionTracker.Reconnect`: with no session held, return the
`session not created yet` error; otherwise forward the delay to the held
session's native `Reconnect` and return its result verbatim. -/
def trackerReconnect (held : Option NativeSession) (afterSeconds : Int) :
    Option TrackerError :=
  match held with
  | none => some .noActiveSession
  | some s => (s.reconnectResult afterSeconds).map .native

/-- Embeds `sessionTracker.sessionCreated`: replace the held handle. -/
def sessionCreated (s : NativeSession) (_held : Option NativeSession) :
    Option NativeSession :=
  some s

/-- Embeds `sessionTracker.handleState`: clear the handle when the state
event is `Disconnecting`, otherwise leave it. -/
def handleState (ev : ConnState) (held : Option NativeSession) :
    Option NativeSession :=
  if ev = ConnState.Disconnecting then none else held

/-- One call into the tracker that can change the held handle. -/
inductive TrackerOp where
  | created (s : NativeSession)
  | state (ev : ConnState)

/-- Fold a tracker call history into the held handle, starting from a fresh
tracker holding no session. -/
def runTrackerOps (ops : List TrackerOp) : Option NativeSession :=
  ops.foldl (fun held op =>
    match op with
    | .created s => sessionCreated s held
    | .state ev => handleState ev held) none

/-- Whether a `sessionCreated` call occurs after the last `Disconnecting`
event of the history (with no `Disconnecting` event: whether one occurs at
all). -/
def createdSinceDisconnect (ops : List TrackerOp) : Bool :=
  ops.foldl (fun b op =>
    match op with
    | .created _ => true
    | .state ev => if ev = ConnState.Disconnecting then false else b) false

/-- The tracker holds a handle exactly when a `sessionCreated` call occurred
since the last `Disconnecting` event. -/
theorem runTrackerOps_isSome (ops : List TrackerOp) :
    (runTrackerOps ops).isSome = createdSinceDisconnect ops := by
  unfold runTrackerOps createdSinceDisconnect
  suffices h : ∀ held : Option NativeSession,
      (ops.foldl (fun held op =>
        match op with
        | .created s => sessionCreated s held
        | .state ev => handleState ev held) held).isSome
      = ops.foldl (fun b op =>
        match op with
        | .created _ => true
        | .state ev => if ev = ConnState.Disconnecting then false else b)
          held.isSome from h none
  induction ops with
  | nil => intro held; rfl
  | cons op rest ih =>
    intro held
    cases op with
    | created s => simpa [sessionCreated] using ih (some s)
    | state ev =>
      by_cases hev : ev = ConnState.Disconnecting
      · simpa [handleState, hev] using ih none
      · simpa [handleState, hev] using ih held

/-- C7: after any call history, `Reconnect` returns the no-active-session
error iff no `sessionCreated` call has occurred since the last
`Disconnecting` event; otherwise it forwards the delay to the held handle's
native `Reconnect` and returns that call's result verbatim. -/
theorem trackerReconnect_no_active_session_iff (ops : List TrackerOp)
    (afterSeconds : Int) :
    (trackerReconnect (runTrackerOps ops) afterSeconds
        = some TrackerError.noActiveSession
      ↔ createdSinceDisconnect ops = false)
    ∧ (∀ s, runTrackerOps ops = some s →
        trackerReconnect (runTrackerOps ops) afterSeconds
          = (s.reconnectResult afterSeconds).map TrackerError.native) := by
  have hsome := runTrackerOps_isSome ops
  constructor
  · constructor
    · intro h
      cases hh : runTrackerOps ops with
      | none => rw [hh] at hsome; exact hsome.symm
      | some s =>
        rw [hh] at h
        unfold trackerReconnect at h
        simp only at h
        cases hr : s.reconnectResult afterSeconds with
        | none => rw [hr] at h; cases h
        | some m => rw [hr] at h; simp at h
    · intro h
      rw [h] at hsome
      cases hh : runTrackerOps ops with
      | none => rfl
      | some s => rw [hh] at hsome; cases hsome
  · intro s hs
    rw [hs]
    rfl

/-- A concrete native session whose `Reconnect` always succeeds. -/
def okSession : NativeSession := ⟨fun _ => none⟩

/-- C7 witness: after a single `sessionCreated` call the tracker does not
return the no-active-session error and forwards the delay to the held
session. -/
theorem trackerReconnect_witness :
    (trackerReconnect (runTrackerOps [TrackerOp.created okSession]) 5
        = some TrackerError.noActiveSession
      ↔ createdSinceDisconnect [TrackerOp.created okSession] = false)
    ∧ trackerReconnect (runTrackerOps [TrackerOp.created okSession]) 5
        = (okSession.reconnectResult 5).map TrackerError.native := by
  have h := trackerReconnect_no_active_session_iff [TrackerOp.created okSession] 5
  exact ⟨h.1, h.2 okSession rfl⟩

/-! ## Session wrapper (`sessionWrapper`) -/

/-- Modelled from the spec: the external engine's native tunnel session.
The native `Start` primitive returns no synchronous value; `startFailure`
is the failure, if any, arising from starting the native session (spec:
“errors from the native start call, if any”), and the native `Wait`
surfaces the session's terminal error — a start failure included. -/
structure NativeVpnSession where
  startFailure : Option String
  deriving Repr, DecidableEq

/-- Embeds `sessionWrapper.Start`: invoke the native `Start` (whose effect
is not observable in the return value) and return `nil` unconditionally. -/
def sessionWrapperStart (_s : NativeVpnSession) : Option String := none

/-- Embeds `sessionWrapper.Wait`: return the native `Wait` result verbatim,
i.e. the session's terminal error. -/
def sessionWrapperWait (s : NativeVpnSession) : Option String := s.startFailure

/-- C8 counterexample: a native session whose start fails, yet the uniform
handle's `Start` returns `nil` — the failure is not reported through
`Start`. -/
theorem sessionWrapperStart_returns_nil_on_failure :
    (NativeVpnSession.mk (some "native start failed")).startFailure.isSome = true
    ∧ sessionWrapperStart (NativeVpnSession.mk (some "native start failed")) = none :=
  ⟨rfl, rfl⟩

/-- C8 amended: `sessionWrapper.Start` returns `nil` on every execution,
whether or not starting the native session fails; a start failure reaches
the caller only through `Wait`, which returns the session's terminal error
verbatim. -/
theorem sessionWrapperStart_always_nil (s : NativeVpnSession) :
    sessionWrapperStart s = none ∧ sessionWrapperWait s = s.startFailure :=
  ⟨rfl, rfl⟩

/-! ## Lock discipline of the session tracker -/

/-- An atomic step of a tracker method body: mutex operations and accesses
to the shared `session` field. -/
inductive MuOp where
  | lock
  | unlock
  | readHandle
  | writeHandle
  deriving Repr, DecidableEq

/-- The body of `sessionCreated`:
`st.mux.Lock(); st.session = s; st.mux.Unlock()`. -/
def sessionCreatedBody : List MuOp := [.lock, .writeHandle, .unlock]

/-- The body of `Reconnect`: read `st.session` for the nil check and read
it again for the forwarded call — no mutex operation appears in the
method. -/
def reconnectBody : List MuOp := [.readHandle, .readHandle]

/-- The body of `handleState` on a `Disconnecting` event:
`st.session = nil` — no mutex operation appears in the method. -/
def handleStateBody : List MuOp := [.writeHandle]

/-- Whether every access to the handle in a body happens while the mutex is
held (`d` is the lock depth). -/
def accessesLocked : List MuOp → Nat → Bool
  | [], _ => true
  | .lock :: rest, d => accessesLocked rest (d + 1)
  | .unlock :: rest, d => accessesLocked rest (d - 1)
  | .readHandle :: rest, d => decide (0 < d) && accessesLocked rest d
  | .writeHandle :: rest, d => decide (0 < d) && accessesLocked rest d

/-- A method body guards the handle when all its handle accesses happen
under the mutex. -/
def guardsHandle (body : List MuOp) : Bool := accessesLocked body 0

/-- C9: only `sessionCreated` serializes its handle access through
`st.mux`; the bodies of `Reconnect` and `handleState` read and write the
shared handle with the mutex never taken, so not every access to the handle
is under the tracker's lock. -/
theorem sessionTracker_lock_discipline :
    guardsHandle sessionCreatedBody = true
    ∧ guardsHandle reconnectBody = false
    ∧ guardsHandle handleStateBody = false := by decide

/-! ## Mobile provider start (`MobileNode.StartProvider`) -/

/-- Embeds Go's `strings.Split` with separator `","`. -/
def goSplitComma (s : String) : List String :=
  (s.toList.splitOn ',').map (fun cs => String.mk cs)

/-- The fixed service list hard-coded in `StartProvider`. -/
def activeServices : String := "wireguard,scraping,data_transfer"

/-- Embeds `MobileNode.unlockIdentity`: on a `UseOrCreate` failure return
`""`, otherwise the unlocked identity's address. -/
def unlockIdentity (useOrCreate : Except String Identity) : String :=
  match useOrCreate with
  | .error _ => ""
  | .ok id => id.address

/-- Options bundle returned by `services.GetStartOptions`, opaque here. -/
abbrev ProviderStartOpts := String

/-- The `servicesManager.Start` calls the `StartProvider` loop makes over a
service-type list, in order: the loop stops after the first
`GetStartOptions` or `Start` failure. -/
def startProviderCalls (providerID : String)
    (getStartOptions : String → Except String ProviderStartOpts)
    (managerStart : Identity → String → ProviderStartOpts → Except String ServiceID) :
    List String → List (Identity × String × ProviderStartOpts)
  | [] => []
  | t :: rest =>
    match getStartOptions t with
    | .error _ => []
    | .ok opts =>
      match managerStart ⟨providerID⟩ t opts with
      | .error _ => [(⟨providerID⟩, t, opts)]
      | .ok _ =>
        (⟨providerID⟩, t, opts) ::
          startProviderCalls providerID getStartOptions managerStart rest

/-- Embeds `MobileNode.StartProvider`: unlock the configured identity, split
the fixed comma-separated service list, and start each service type in
order with the unlocked address; the result is the list of
`servicesManager.Start` invocations made. -/
def startProvider (useOrCreate : Except String Identity)
    (getStartOptions : String → Except String ProviderStartOpts)
    (managerStart : Identity → String → ProviderStartOpts → Except String ServiceID) :
    List (Identity × String × ProviderStartOpts) :=
  startProviderCalls (unlockIdentity useOrCreate) getStartOptions managerStart
    (goSplitComma activeServices)

/-- Every call made by the loop uses the provider identity it was given. -/
theorem startProviderCalls_identity (providerID : String)
    (getStartOptions : String → Except String ProviderStartOpts)
    (managerStart : Identity → String → ProviderStartOpts → Except String ServiceID)
    (ts : List String) :
    ∀ c ∈ startProviderCalls providerID getStartOptions managerStart ts,
      c.1.address = providerID := by
  induction ts with
  | nil => intro c hc; cases hc
  | cons t rest ih =>
    intro c hc
    unfold startProviderCalls at hc
    cases hg : getStartOptions t with
    | error err => rw [hg] at hc; cases hc
    | ok opts =>
      rw [hg] at hc
      simp only at hc
      cases hm : managerStart ⟨providerID⟩ t opts with
      | error err =>
        rw [hm] at hc
        simp only [List.mem_singleton] at hc
        subst hc
        rfl
      | ok id =>
        rw [hm] at hc
        simp only [List.mem_cons] at hc
        rcases hc with hc | hc
        · subst hc; rfl
        · exact ih c hc

/-- When every options lookup and every start succeed, the loop calls
`Start` once for each listed service type, in order. -/
theorem startProviderCalls_all_ok (providerID : String)
    (getStartOptions : String → Except String ProviderStartOpts)
    (managerStart : Identity → String → ProviderStartOpts → Except String ServiceID)
    (ts : List String)
    (hg : ∀ t, (getStartOptions t).isOk = true)
    (hm : ∀ i t o, (managerStart i t o).isOk = true) :
    (startProviderCalls providerID getStartOptions managerStart ts).map
        (fun c => (c.1.address, c.2.1))
      = ts.map (fun t => (providerID, t)) := by
  induction ts with
  | nil => rfl
  | cons t rest ih =>
    cases hgt : getStartOptions t with
    | error err => exact absurd (hg t) (by simp [hgt, Except.isOk, Except.toBool])
    | ok opts =>
      cases hmt : managerStart ⟨providerID⟩ t opts with
      | error err =>
        exact absurd (hm ⟨providerID⟩ t opts) (by simp [hmt, Except.isOk, Except.toBool])
      | ok id => simp [startProviderCalls, hgt, hmt, ih]

/-- C10: when unlocking the configured identity fails, `StartProvider` does
not abort: every `servicesManager.Start` call it makes uses an identity
whose address is the empty string, and when the options lookups and starts
succeed it starts all three fixed service types in order, each with the
empty-address identity. -/
theorem startProvider_unlock_failure_continues (e : String)
    (getStartOptions : String → Except String ProviderStartOpts)
    (managerStart : Identity → String → ProviderStartOpts → Except String ServiceID) :
    (∀ c ∈ startProvider (.error e) getStartOptions managerStart, c.1.address = "")
    ∧ ((∀ t, (getStartOptions t).isOk = true) →
        (∀ i t o, (managerStart i t o).isOk = true) →
        (startProvider (.error e) getStartOptions managerStart).map
            (fun c => (c.1.address, c.2.1))
          = [("", "wireguard"), ("", "scraping"), ("", "data_transfer")]) := by
  constructor
  · exact startProviderCalls_identity "" getStartOptions managerStart
      (goSplitComma activeServices)
  · intro hg hm
    exact startProviderCalls_all_ok "" getStartOptions managerStart
      (goSplitComma activeServices) hg hm

/-- C10 witness: with a failed unlock and an always-succeeding manager,
`StartProvider` starts wireguard, scraping and data_transfer with the
empty-address identity. -/
theorem startProvider_unlock_failure_witness :
    (startProvider (Except.error "boom") (fun _ => Except.ok "opts")
        (fun _ _ _ => Except.ok "sid")).map (fun c => (c.1.address, c.2.1))
      = [("", "wireguard"), ("", "scraping"), ("", "data_transfer")] :=
  (startProvider_unlock_failure_continues "boom" (fun _ => Except.ok "opts")
    (fun _ _ _ => Except.ok "sid")).2 (fun _ => rfl) (fun _ _ _ => rfl)

end NodeCore
